import Mathlib

/-!
Shallow embedding of `src/shiptivitas-t2/server.js` (an Express + better-sqlite3
HTTP API managing kanban "client" records), together with theorems settling the
spec claims about its reordering behaviour.

Modelling conventions, read against the source:

* The `clients` table is a `List Client` in table order.  SQL `ORDER BY` with a
  single-quoted column name is ordering by a string constant in SQLite, so the
  two queries in the source that use it leave the table order unchanged; the
  embedding therefore keeps the filtered list in table order.
* JavaScript numbers reaching `validateId` / `validatePriority` are either real
  integers, `NaN` (from `parseInt` of a non-numeric path parameter), or absent
  (`undefined` body field).  These are the `JsVal` constructors.
* better-sqlite3 raises a `RangeError` when anonymous (positional) bind values
  are supplied to a statement whose SQL has only named parameters
  (`$status`, `$priority`).  The conflict lookup in the PUT handler does exactly
  that, so it is embedded as an unconditional `bindError` throw; it throws
  before the malformed shift query (`SELECT * clients`, missing `FROM`) is even
  prepared, and before any write.
* Reading a property of `undefined` is a JavaScript `TypeError` throw.
* The `clients` table schema is not under `src/`.  Modelled from the spec:
  section 3 declares `id` a unique, immutable primary key, so an `INSERT` that
  reuses an existing id raises a SQLite constraint error (`constraintError`)
  and changes nothing.
* An Express handler that calls `res.status(...).send(...)` without returning
  keeps executing; the embedding records every attempted response in order in
  `Outcome.responses`.  An uncaught throw ends the handler with the responses
  attempted so far and the store as it stands (`Outcome.thrown`).
-/

namespace Shiptivitas

/-- A JavaScript number-valued input as it reaches the handlers: a real
integer, the value `NaN`, or `undefined` (absent body field). -/
inductive JsVal where
  | undef
  | nan
  | int (n : Int)
deriving DecidableEq, Repr

/-- `Number.isNaN` on a `JsVal`: true only for the value `NaN`
(`Number.isNaN(undefined)` is `false` since `undefined` is not a number). -/
def numberIsNaN : JsVal → Bool
  | .nan => true
  | _ => false

/-- A row of the `clients` table. -/
structure Client where
  id : Int
  name : String
  description : String
  status : String
  priority : Int
deriving DecidableEq, Repr

/-- The `clients` table, in table order. -/
abbrev Store := List Client

/-- Result shape of `validateId` / `validatePriority` in the source:
either `{ valid: true }` or `{ valid: false, messageObj: {...} }`. -/
inductive ValidationResult where
  | valid
  | invalid (message longMessage : String)
deriving DecidableEq, Repr

/-- `select * from clients where id = ? limit 1`, also the JS
`clients.find((client) => client.id === id)`: both return the first row whose
id equals the given integer.  Binding `NaN` stores SQL `NULL` and
`id = NULL` matches no row; strict equality with `NaN` is false likewise. -/
def selectById (s : Store) (v : JsVal) : Option Client :=
  match v with
  | .int m => s.find? (fun c => c.id == m)
  | _ => none

/-- `validateId` (server.js lines 26-51). -/
def validateId (s : Store) (v : JsVal) : ValidationResult :=
  if numberIsNaN v then
    .invalid "Invalid id provided." "Id can only be integer."
  else
    match selectById s v with
    | none => .invalid "Invalid id provided." "Cannot find client with that id."
    | some _ => .valid

/-- `validatePriority` (server.js lines 57-70): rejects only the value `NaN`. -/
def validatePriority (v : JsVal) : ValidationResult :=
  if numberIsNaN v then
    .invalid "Invalid priority provided." "Priority can only be positive integer."
  else
    .valid

/-- The uncaught JavaScript exceptions the PUT handler can raise. -/
inductive JsError where
  /-- better-sqlite3 `RangeError`: anonymous bind values supplied to a
  statement with only named parameters. -/
  | bindError
  /-- JavaScript `TypeError`: reading a property of `undefined`. -/
  | typeError
  /-- SQLite primary-key violation on `INSERT`. -/
  | constraintError
deriving DecidableEq, Repr

/-- A response body the server attempts to send. -/
inductive Body where
  | clientsList (cs : List Client)
  | clientOpt (c : Option Client)
  | message (short long : String)
deriving DecidableEq, Repr

/-- One attempted `res.status(n).send(body)`. -/
structure Response where
  status : Nat
  body : Body
deriving DecidableEq, Repr

/-- What a handler invocation did: the responses it attempted in order, the
store after it finished, and the uncaught exception if it threw. -/
structure Outcome where
  responses : List Response
  store : Store
  thrown : Option JsError
deriving DecidableEq, Repr

/-- The `res.status(400).send(messageObj)` that `validateId` failure triggers.
The source lacks a `return` there, so the handler continues either way; the
embedding keeps the attempted response as a prefix. -/
def validatePre (s : Store) (v : JsVal) : List Response :=
  match validateId s v with
  | .valid => []
  | .invalid m lm => [⟨400, .message m lm⟩]

/-- `newLowestPriority` (server.js lines 210-218): read the complete lane with
`ORDER BY` on a string constant (no reordering), take the LAST row in table
order, and return its priority + 1.  On an empty lane the read has no last
element and `leastPriorityClient.priority` throws a `TypeError`. -/
def newLowestPriority (s : Store) : Except JsError Int :=
  match (s.filter (fun c => c.status == "complete")).getLast? with
  | none => .error .typeError
  | some c => .ok (c.priority + 1)

/-- `INSERT INTO clients VALUES (?, ?, ?, ?, ?)`.  Modelled from the spec:
the table schema is not under `src/`; spec section 3 makes `id` a unique
primary key, so inserting a row whose id already exists raises a constraint
error and leaves the table unchanged. -/
def insertClient (s : Store) (c : Client) : Except JsError Store :=
  if s.any (fun x => x.id == c.id) then .error .constraintError
  else .ok (s ++ [c])

/-- In-memory mutation of the found client object inside the already-read
`clients` array (server.js lines 197-198): the first row with the given id
gets the new status and priority. -/
def setFirstById (s : List Client) (i : Int) (st : String) (p : Int) : List Client :=
  match s with
  | [] => []
  | c :: rest =>
    if c.id == i then { c with status := st, priority := p } :: rest
    else c :: setFirstById rest i st p

/-- The PUT `/api/v1/clients/:id` handler (server.js lines 141-209).
`idParam` is `parseInt(req.params.id, 10)` (an integer or `NaN`); `status`
and `priority` come from the JSON body (`none` / `.undef` when absent). -/
def putHandler (s : Store) (idParam : JsVal) (status : Option String)
    (priority : JsVal) : Outcome :=
  let pre := validatePre s idParam
  let clients := s
  let client := selectById s idParam
  if validatePriority priority = .valid ∧ priority ≠ .undef then
    -- conflict lookup: `.get(status, priority)` supplies positional values to
    -- a statement whose only parameters are named, so better-sqlite3 throws
    -- before anything is written (and before the FROM-less shift query or the
    -- final UPDATE could run)
    ⟨pre, s, some .bindError⟩
  else if status = some "complete" then
    match newLowestPriority s with
    | .error e => ⟨pre, s, some e⟩
    | .ok p =>
      match client with
      | none => ⟨pre, s, some .typeError⟩  -- `client.priority = ...` on undefined
      | some c =>
        match insertClient s ⟨c.id, c.name, c.description, "complete", p⟩ with
        | .error e => ⟨pre, s, some e⟩
        | .ok s2 => ⟨pre ++ [⟨200, .clientsList (setFirstById clients c.id "complete" p)⟩], s2, none⟩
  else
    ⟨pre ++ [⟨200, .clientsList clients⟩], s, none⟩

/-- The GET `/api/v1/clients/:id` handler (server.js lines 105-114): sends the
400 on validation failure but, lacking a `return`, always falls through to the
200 whose body re-queries the id. -/
def getClientHandler (s : Store) (idParam : JsVal) : Outcome :=
  let pre := validatePre s idParam
  ⟨pre ++ [⟨200, .clientOpt (selectById s idParam)⟩], s, none⟩

/-- One PUT request: path id plus optional body status and priority. -/
structure PutCall where
  idParam : JsVal
  status : Option String
  priority : JsVal
deriving DecidableEq, Repr

/-- The store after one PUT request. -/
def applyPut (s : Store) (k : PutCall) : Store :=
  (putHandler s k.idParam k.status k.priority).store

/-- The store after a sequence of PUT requests. -/
def applyCalls (s : Store) (ks : List PutCall) : Store :=
  ks.foldl applyPut s

/-- The priorities of the records in lane `L`, in table order. -/
def lanePriorities (s : Store) (L : String) : List Int :=
  (s.filter (fun c => c.status == L)).map (fun c => c.priority)

/-- Lane `L` is dense: its priorities are a permutation of `1..count(L)` —
exactly the set `{1, ..., count}` with no duplicates and no gaps. -/
def denseLane (s : Store) (L : String) : Prop :=
  List.Perm (lanePriorities s L)
    ((List.range (lanePriorities s L).length).map (fun i => (i : Int) + 1))

/-- Every lane is dense. -/
def DenseInvariant (s : Store) : Prop :=
  denseLane s "backlog" ∧ denseLane s "in-progress" ∧ denseLane s "complete"

instance (s : Store) (L : String) : Decidable (denseLane s L) := by
  unfold denseLane; exact List.decidablePerm _ _

instance (s : Store) : Decidable (DenseInvariant s) := by
  unfold DenseInvariant; infer_instance

/-! ### Concrete stores used in counterexamples and witnesses -/

/-- A store whose backlog lane holds priorities 1, 2, 3 (the conflict-shift
example of the spec). -/
def backlog3 : Store :=
  [⟨1, "a", "", "backlog", 1⟩, ⟨2, "b", "", "backlog", 2⟩, ⟨3, "c", "", "backlog", 3⟩]

/-- A store whose complete lane has maximum priority 5 (the append-to-complete
example of the spec). -/
def completeMax5 : Store :=
  [⟨10, "x", "", "complete", 5⟩, ⟨7, "y", "", "in-progress", 1⟩]

/-- A store whose complete lane is empty. -/
def noComplete : Store := [⟨1, "a", "", "backlog", 1⟩]

/-- A dense seed store: backlog priorities {1, 2}, complete priorities {1}. -/
def laneSeed : Store :=
  [⟨1, "a", "", "backlog", 1⟩, ⟨2, "b", "", "backlog", 2⟩, ⟨3, "c", "", "complete", 1⟩]

/-- An arbitrary mix of reorder calls: a lane move, a priority move, and a
call with an unknown id. -/
def someCalls : List PutCall :=
  [⟨.int 1, some "complete", .undef⟩, ⟨.int 2, none, .int 1⟩, ⟨.int 9, none, .undef⟩]

/-! ### Helper lemmas -/

theorem selectById_mem {s : Store} {i : JsVal} {c : Client}
    (h : selectById s i = some c) : c ∈ s := by
  cases i with
  | int m => exact List.mem_of_find?_eq_some h
  | undef => simp [selectById] at h
  | nan => simp [selectById] at h

theorem insertClient_found {s : Store} {c : Client} (hc : c ∈ s)
    (nm dsc st : String) (p : Int) :
    insertClient s ⟨c.id, nm, dsc, st, p⟩ = .error .constraintError := by
  have h : s.any (fun x => x.id == (Client.mk c.id nm dsc st p).id) = true :=
    List.any_eq_true.mpr ⟨c, hc, by simp⟩
  simp [insertClient, h]

theorem validatePre_status {s : Store} {v : JsVal} {r : Response}
    (h : r ∈ validatePre s v) : r.status = 400 := by
  unfold validatePre at h
  split at h
  · cases h
  · rw [List.mem_singleton] at h
    subst h
    rfl

/-- Every PUT invocation either throws after attempting only the validation
400 (leaving the store untouched), or succeeds on the pass-through path with
a 200 carrying the record list it read at entry; no path commits a write. -/
theorem putHandler_cases (s : Store) (i : JsVal) (st : Option String) (p : JsVal) :
    (∃ e, putHandler s i st p = ⟨validatePre s i, s, some e⟩) ∨
      putHandler s i st p = ⟨validatePre s i ++ [⟨200, Body.clientsList s⟩], s, none⟩ := by
  unfold putHandler
  dsimp only
  split
  · exact Or.inl ⟨_, rfl⟩
  · split
    · split
      · exact Or.inl ⟨_, rfl⟩
      · split
        · exact Or.inl ⟨_, rfl⟩
        · split
          · exact Or.inl ⟨_, rfl⟩
          · rename_i c hcl hscr s2 hins
            rw [insertClient_found (selectById_mem hcl)] at hins
            cases hins
    · exact Or.inr rfl

theorem putHandler_store_eq (s : Store) (i : JsVal) (st : Option String) (p : JsVal) :
    (putHandler s i st p).store = s := by
  rcases putHandler_cases s i st p with ⟨e, he⟩ | he <;> rw [he]

theorem applyCalls_eq (s : Store) (ks : List PutCall) : applyCalls s ks = s := by
  induction ks generalizing s with
  | nil => rfl
  | cons k ks ih =>
    show applyCalls (applyPut s k) ks = s
    rw [show applyPut s k = s from putHandler_store_eq s k.idParam k.status k.priority]
    exact ih s

theorem validateId_invalid_selectById {s : Store} {i : JsVal} {m lm : String}
    (h : validateId s i = .invalid m lm) : selectById s i = none := by
  cases i with
  | int n =>
    unfold validateId at h
    simp only [numberIsNaN, Bool.false_eq_true, if_false] at h
    split at h
    · assumption
    · cases h
  | undef => rfl
  | nan => rfl

theorem priority_branch_eq (s : Store) (i : JsVal) (st : Option String) (p : JsVal)
    (hdef : p ≠ .undef) (hnan : numberIsNaN p = false) :
    putHandler s i st p = ⟨validatePre s i, s, some .bindError⟩ := by
  have hcond : validatePriority p = .valid ∧ p ≠ .undef :=
    ⟨by simp [validatePriority, hnan], hdef⟩
  unfold putHandler
  dsimp only
  rw [if_pos hcond]

/-! ### Claim theorems -/

/-- C1: for every lane (backlog, in-progress, complete), after any sequence of
reorder calls (PUT with any combination of status and priority), the
priorities of the records in that lane are exactly {1, ..., count}, with no
duplicates and no gaps — provided the seed store satisfied the invariant.
(It is preserved because no PUT path ever commits a write: the priority path
throws on parameter binding and the complete path throws on the primary-key
constraint or on the empty lane.) -/
theorem reorder_sequence_preserves_dense_invariant (s : Store) (ks : List PutCall)
    (h : DenseInvariant s) : DenseInvariant (applyCalls s ks) := by
  rw [applyCalls_eq]
  exact h

theorem reorder_sequence_preserves_dense_invariant_witness :
    DenseInvariant laneSeed ∧ DenseInvariant (applyCalls laneSeed someCalls) :=
  ⟨by decide, reorder_sequence_preserves_dense_invariant laneSeed someCalls (by decide)⟩

/-- C2 counterexample: with backlog priorities {1, 2, 3}, the reorder of the
record with priority 3 to priority 2 does NOT move it to 2 and shift the old
occupant to 3; the handler throws a better-sqlite3 binding error (positional
values against the named-parameter conflict statement) before any write, and
the store is unchanged. -/
theorem conflict_reorder_throws_before_shift :
    (putHandler backlog3 (.int 3) (some "backlog") (.int 2)).thrown = some .bindError ∧
      (putHandler backlog3 (.int 3) (some "backlog") (.int 2)).store = backlog3 ∧
      lanePriorities (putHandler backlog3 (.int 3) (some "backlog") (.int 2)).store "backlog"
        = [1, 2, 3] := by
  decide

/-- C3 counterexample: with the complete lane at maximum priority 5, a PUT
with status complete and no priority does NOT give the moved record
priority 6; the handler computes 6 but then runs an INSERT that reuses the
moved record's id, which violates the primary-key constraint and throws,
leaving the store unchanged (the moved record keeps its old lane and
priority). -/
theorem complete_append_throws_constraint :
    (putHandler completeMax5 (.int 7) (some "complete") .undef).thrown
        = some .constraintError ∧
      (putHandler completeMax5 (.int 7) (some "complete") .undef).store = completeMax5 ∧
      (∀ r ∈ (putHandler completeMax5 (.int 7) (some "complete") .undef).responses,
        r.status ≠ 200) := by
  decide

/-- C4: every PUT leaves the total number of records and the list of record
ids unchanged — the handler never creates or deletes a record (no write path
ever commits: the only INSERT it can reach reuses an existing primary key and
throws). -/
theorem put_preserves_record_set (s : Store) (i : JsVal) (st : Option String) (p : JsVal) :
    ((putHandler s i st p).store).map (fun c => c.id) = s.map (fun c => c.id) ∧
      ((putHandler s i st p).store).length = s.length := by
  rw [putHandler_store_eq]
  exact ⟨rfl, rfl⟩

/-- C5 counterexample: a PUT with status complete and no priority on a store
whose complete lane is empty does not fail with a structured EmptyLane error;
`newLowestPriority` takes the last element of the empty lane and dereferences
`undefined.priority`, a JavaScript TypeError crash (the store is unchanged). -/
theorem complete_on_empty_lane_crashes :
    (putHandler noComplete (.int 1) (some "complete") .undef).thrown = some .typeError ∧
      (putHandler noComplete (.int 1) (some "complete") .undef).store = noComplete ∧
      newLowestPriority noComplete = .error .typeError :=
  ⟨by decide, by decide, rfl⟩

/-- C6 counterexample: invalid inputs are NOT all rejected: priority -1
passes `validatePriority` (only NaN is rejected, although the validator's own
message says priority can only be a positive integer), and a PUT with the
unrecognized status "done" is never rejected with an invalid-status error —
it runs to a 200 response. -/
theorem invalid_inputs_not_rejected :
    validatePriority (.int (-1)) = .valid ∧
      (putHandler noComplete (.int 1) (some "done") .undef).thrown = none ∧
      (putHandler noComplete (.int 1) (some "done") .undef).responses
        = [⟨200, .clientsList noComplete⟩] := by
  decide

/-- C7: whenever a PUT finishes without throwing, every 200 response it sent
carries exactly the record set as the store stands after the call — the body
is never stale with respect to a committed write (the only non-throwing path
is the pass-through one, which writes nothing and returns the list it read). -/
theorem put_success_body_is_fresh (s : Store) (i : JsVal) (st : Option String) (p : JsVal)
    (h : (putHandler s i st p).thrown = none) :
    ∀ r ∈ (putHandler s i st p).responses, r.status = 200 →
      r.body = .clientsList ((putHandler s i st p).store) := by
  rcases putHandler_cases s i st p with ⟨e, he⟩ | he
  · rw [he] at h
    cases h
  · rw [he]
    intro r hr h200
    rcases List.mem_append.mp hr with hpre | hlast
    · rw [validatePre_status hpre] at h200
      cases h200
    · rw [List.mem_singleton] at hlast
      subst hlast
      rfl

theorem put_success_body_is_fresh_witness :
    (putHandler laneSeed (.int 1) none .undef).thrown = none ∧
      ∀ r ∈ (putHandler laneSeed (.int 1) none .undef).responses, r.status = 200 →
        r.body = .clientsList ((putHandler laneSeed (.int 1) none .undef).store) :=
  ⟨by decide, put_success_body_is_fresh laneSeed (.int 1) none .undef (by decide)⟩

/-- C8: a PUT for an existing id with neither a status nor a priority in the
body is a pure no-op on the store: it writes nothing and answers 200 with the
unchanged record set. -/
theorem put_noop_leaves_store_unchanged (s : Store) (i : JsVal) (c : Client)
    (h : selectById s i = some c) :
    putHandler s i none .undef = ⟨[⟨200, .clientsList s⟩], s, none⟩ := by
  have hnan : numberIsNaN i = false := by
    cases i with
    | int n => rfl
    | undef => simp [selectById] at h
    | nan => simp [selectById] at h
  have hval : validateId s i = .valid := by
    unfold validateId
    rw [hnan]
    simp [h]
  unfold putHandler
  dsimp only
  rw [if_neg (fun hc => hc.2 rfl), if_neg (by simp)]
  unfold validatePre
  rw [hval]
  rfl

theorem put_noop_leaves_store_unchanged_witness :
    selectById laneSeed (.int 2) = some ⟨2, "b", "", "backlog", 2⟩ ∧
      putHandler laneSeed (.int 2) none .undef
        = ⟨[⟨200, .clientsList laneSeed⟩], laneSeed, none⟩ :=
  ⟨by decide, put_noop_leaves_store_unchanged laneSeed (.int 2) ⟨2, "b", "", "backlog", 2⟩ (by decide)⟩

/-- C9: every PUT whose body carries a defined, non-NaN priority throws the
better-sqlite3 binding error before performing any write: the store is
unchanged and no 200 response is produced, whatever the id, status, priority
value, or store contents. -/
theorem priority_path_throws_before_write (s : Store) (i : JsVal) (st : Option String)
    (p : JsVal) (hdef : p ≠ .undef) (hnan : numberIsNaN p = false) :
    (putHandler s i st p).thrown = some .bindError ∧
      (putHandler s i st p).store = s ∧
      ∀ r ∈ (putHandler s i st p).responses, r.status ≠ 200 := by
  rw [priority_branch_eq s i st p hdef hnan]
  refine ⟨rfl, rfl, ?_⟩
  intro r hr h200
  rw [validatePre_status hr] at h200
  cases h200

theorem priority_path_throws_before_write_witness :
    (JsVal.int 0 ≠ JsVal.undef) ∧ numberIsNaN (.int 0) = false ∧
      ((putHandler laneSeed (.int 2) (some "in-progress") (.int 0)).thrown
          = some .bindError ∧
        (putHandler laneSeed (.int 2) (some "in-progress") (.int 0)).store = laneSeed ∧
        ∀ r ∈ (putHandler laneSeed (.int 2) (some "in-progress") (.int 0)).responses,
          r.status ≠ 200) :=
  ⟨by decide, by decide,
    priority_path_throws_before_write laneSeed (.int 2) (some "in-progress") (.int 0)
      (by decide) (by decide)⟩

/-- C10: a GET by id whose id fails validation (non-integer, or no matching
record) sends the 400 error body and then, lacking a return, still attempts a
200 response whose body is the result of re-querying that id — which is the
SQL result `undefined` (none), since a failing validation means no row
matches. -/
theorem get_invalid_id_sends_400_then_200 (s : Store) (i : JsVal) (m lm : String)
    (h : validateId s i = .invalid m lm) :
    getClientHandler s i
      = ⟨[⟨400, .message m lm⟩, ⟨200, .clientOpt none⟩], s, none⟩ := by
  have hsel := validateId_invalid_selectById h
  unfold getClientHandler
  dsimp only
  rw [hsel]
  unfold validatePre
  rw [h]
  rfl

theorem get_invalid_id_sends_400_then_200_witness :
    validateId ([] : Store) (.int 999999)
        = .invalid "Invalid id provided." "Cannot find client with that id." ∧
      getClientHandler ([] : Store) (.int 999999)
        = ⟨[⟨400, .message "Invalid id provided." "Cannot find client with that id."⟩,
            ⟨200, .clientOpt none⟩], [], none⟩ :=
  ⟨by decide,
    get_invalid_id_sends_400_then_200 ([] : Store) (.int 999999)
      "Invalid id provided." "Cannot find client with that id." (by decide)⟩

end Shiptivitas
